import Mathlib

/-!
Shallow embedding of the website inspection and vulnerability-heuristic
engine of the `site-health-insights-report` repository, together with
proofs settling the frozen claims about it.

Source files embedded here:
* `src/server/routes.ts` — `validateUrl`, the `WebSecurityScanner` class
  (`SECURITY_HEADERS`, `analyzeSecurityHeaders`, `analyzeSSLConfiguration`,
  `checkCommonVulnerabilities`, `testDirectoryTraversal`,
  `checkInformationDisclosure`, `calculateSecurityScore`,
  `performSecurityScan`);
* `src/supabase/functions/analyze-website/validation.ts` —
  `validateAndSanitizeUrl` (hostname screening), `sanitizeError`;
* `src/supabase/functions/analyze-website/performance-analysis.ts` —
  `mergeTechnologies`, `generateRecommendations`, `detectWordPress`,
  `extractThemeName`, `countPlugins`, `detectCDN`, `analyzeCaching`;
* `src/unnamed/part_005` — the `WordPressSecurityScanner` class.

Network probes (HEAD/GET/POST responses) and JS regular-expression match
results that the code consumes are modelled as explicit input parameters
(`ProbeEnv`, `WpProbeEnv`): they are outcomes of outbound calls or of the
JS regex engine, not computations of the embedded code itself.  Every
string computation the source performs directly (`includes`, `startsWith`,
`endsWith`, `toLowerCase`, `split`, template literals) is embedded
concretely.
-/

namespace SiteHealth

/-- JS `haystack.includes(needle)` on lists of characters. -/
def listContainsSub (needle : List Char) : List Char → Bool
  | [] => needle.isEmpty
  | c :: t => needle.isPrefixOf (c :: t) || listContainsSub needle t

/-- JS `s.includes(sub)`. -/
def strContains (s sub : String) : Bool :=
  listContainsSub sub.toList s.toList

/-- JS `s.toLowerCase()` (the inputs are ASCII header names, hostnames and
HTML). -/
def jsToLower (s : String) : String :=
  String.mk (s.toList.map Char.toLower)

/-- JS `s.startsWith(pre)`. -/
def jsStartsWith (s pre : String) : Bool :=
  pre.toList.isPrefixOf s.toList

/-- JS `s.endsWith(suf)`. -/
def jsEndsWith (s suf : String) : Bool :=
  suf.toList.isSuffixOf s.toList

/-- JS `s.split(sep)` for a one-character separator: `"".split` gives
`[""]`, and leading/trailing/adjacent separators give empty fragments. -/
def splitOnChar (sep : Char) : List Char → List (List Char)
  | [] => [[]]
  | c :: t =>
      if c = sep then [] :: splitOnChar sep t
      else
        match splitOnChar sep t with
        | [] => [[c]]
        | h :: r => (c :: h) :: r

/-- JS `s.split(sep)` returning strings. -/
def jsSplitChar (s : String) (sep : Char) : List String :=
  (splitOnChar sep s.toList).map String.mk

/-- Value of an all-digit character list read in base 10. -/
def digitsToNat (l : List Char) : Nat :=
  l.foldl (fun acc c => acc * 10 + (c.toNat - 48)) 0

/-- JS `arr.join(' ')`. -/
def jsJoinSpace : List String → String
  | [] => ""
  | [s] => s
  | s :: t => s ++ " " ++ jsJoinSpace t

/-- JS lookup `obj[key]` on an object modelled as an entry list:
the value at the first matching key, if any. -/
def jsGet (entries : List (String × String)) (key : String) : Option String :=
  (entries.find? (fun e => e.1 == key)).map (·.2)

/-- Severity levels used by every finding in the source. -/
inductive Severity
  | critical | high | medium | low
deriving DecidableEq, Repr

/-- `SecurityIssue` / `SecurityFinding` record
(`src/server/routes.ts`, `src/unnamed/part_005`).
`cvssScore` is a JS float taking only the values 8.5 and 9.1 in the
source; it is stored here in tenths (85, 91) to stay in exact arithmetic. -/
structure SecurityIssue where
  itype : String
  severity : Severity
  title : String
  description : String
  evidence : Option String := none
  recommendation : String
  cvssScore : Option Nat := none
  cveId : Option String := none
deriving DecidableEq, Repr

/-- `Technology` record (`performance-analysis.ts`). -/
structure Technology where
  name : String
  confidence : Nat
  version : Option String := none
  category : String
deriving DecidableEq, Repr

/-!  ## `mergeTechnologies` (performance-analysis.ts lines 493–505) -/

/-- `mergeTechnologies`: start from a copy of the Builtwith (third-party)
list, take the set of its lowercased names once, and push each custom
(in-process) technology whose lowercased name is not in that set.
Translated from `performance-analysis.ts`; the copies in `index.ts` and
`src/unnamed/part_017`/`part_018` are textually identical. -/
def mergeTechnologies (builtwithTech customTech : List Technology) : List Technology :=
  let existingNames := builtwithTech.map (fun tech => jsToLower tech.name)
  customTech.foldl
    (fun merged tech =>
      if !(existingNames.contains (jsToLower tech.name)) then merged ++ [tech] else merged)
    builtwithTech

/-- A technology list sorted by confidence in descending order. -/
def sortedByConfidenceDesc : List Technology → Bool
  | [] => true
  | [_] => true
  | a :: b :: t => (decide (b.confidence ≤ a.confidence)) && sortedByConfidenceDesc (b :: t)

/-!  ## URL normalization and hostname screening (validation.ts) -/

/-- The normalization step of `validateAndSanitizeUrl` (validation.ts line 23)
and `validateUrl` (routes.ts line 56):
`url.startsWith('http') ? url : 'https://' + url`. -/
def normalizeUrl (url : String) : String :=
  if jsStartsWith url "http" then url else "https://" ++ url

/-- `SECURITY_CONFIG.BLOCKED_DOMAINS` (validation.ts line 11). -/
def BLOCKED_DOMAINS : List String :=
  ["localhost", "127.0.0.1", "0.0.0.0", "169.254.169.254"]

/-- `SECURITY_CONFIG.BLOCKED_TLDS` (validation.ts line 12). -/
def BLOCKED_TLDS : List String := [".local", ".internal"]

/-- JS `/^(\d{1,3}\.){3}\d{1,3}$/.test(hostname)`: four dot-separated
groups of one to three decimal digits. -/
def ipRegexTest (hostname : String) : Bool :=
  let parts := jsSplitChar hostname '.'
  parts.length == 4 &&
    parts.all (fun p => 1 ≤ p.length && p.length ≤ 3 && p.toList.all Char.isDigit)

/-- JS `Number(p)` on an all-digit string. -/
def jsNum (p : String) : Nat := digitsToNat p.toList

/-- The hostname-screening section of `validateAndSanitizeUrl`
(validation.ts lines 31–56), applied to `urlObj.hostname`: blocked-domain
substring check, blocked-TLD suffix check, and the private-IP range check.
Returns the error string produced, or `none` when the hostname passes. -/
def hostBlockError (rawHostname : String) : Option String :=
  let hostname := jsToLower rawHostname
  if BLOCKED_DOMAINS.any (fun blocked => strContains hostname blocked) then
    some "Access to internal/local resources not allowed"
  else if BLOCKED_TLDS.any (fun tld => jsEndsWith hostname tld) then
    some "Access to internal domains not allowed"
  else if ipRegexTest hostname then
    let parts := (jsSplitChar hostname '.').map jsNum
    if parts[0]! == 10 ||
       (parts[0]! == 172 && 16 ≤ parts[1]! && parts[1]! ≤ 31) ||
       (parts[0]! == 192 && parts[1]! == 168) ||
       parts[0]! == 127 then
      some "Access to private IP ranges not allowed"
    else
      none
  else
    none

/-!  ## `sanitizeError` (validation.ts lines 83–103) -/

/-- A JS `unknown` value as `sanitizeError` discriminates it: either an
`Error` carrying a message, or anything else. -/
inductive JsThrown
  | error (message : String)
  | nonError
deriving DecidableEq, Repr

/-- The `safeErrors` list inside `sanitizeError`. -/
def safeErrors : List String :=
  ["URL too long",
   "Invalid protocol",
   "Invalid URL format",
   "Access to internal/local resources not allowed",
   "Access to internal domains not allowed",
   "Access to private IP ranges not allowed",
   "Rate limit exceeded"]

/-- `sanitizeError` (validation.ts lines 83–103; the copy in
`performance-analysis.ts` lines 576–596 is identical). -/
def sanitizeError (e : JsThrown) : String :=
  match e with
  | .error message =>
      if safeErrors.contains message then message
      else "Analysis failed. Please check the URL and try again."
  | .nonError => "Analysis failed. Please check the URL and try again."

/-!  ## `calculateSecurityScore` (routes.ts lines 652–673) -/

/-- Per-finding deduction in `calculateSecurityScore`. -/
def severityDeduction : Severity → Int
  | .critical => 25
  | .high => 15
  | .medium => 8
  | .low => 3

/-- `calculateSecurityScore`: start at 100, subtract the deduction of each
issue's severity, clamp to [0, 100] via `Math.max(0, Math.min(100, score))`. -/
def calculateSecurityScore (issues : List SecurityIssue) : Int :=
  max 0 (min 100 (100 - (issues.map (fun i => severityDeduction i.severity)).sum))

/-!  ## The `WebSecurityScanner` class (routes.ts lines 311–673) -/

/-- One row of the `SECURITY_HEADERS` table.  The JS `expected` field is
`true` (presence-only) or a literal string; `none` here models `true`. -/
structure SecurityHeader where
  name : String
  expected : Option String
  severity : Severity
  description : String
  recommendation : String
deriving DecidableEq, Repr

/-- The `SECURITY_HEADERS` table (routes.ts lines 312–362). -/
def SECURITY_HEADERS : List SecurityHeader :=
  [{ name := "strict-transport-security", expected := none, severity := .high,
     description := "HTTP Strict Transport Security (HSTS) is missing",
     recommendation := "Add HSTS header to force HTTPS connections and prevent downgrade attacks" },
   { name := "content-security-policy", expected := none, severity := .high,
     description := "Content Security Policy (CSP) is missing",
     recommendation := "Implement CSP header to prevent XSS and data injection attacks" },
   { name := "x-frame-options", expected := none, severity := .medium,
     description := "X-Frame-Options header is missing",
     recommendation := "Add X-Frame-Options header to prevent clickjacking attacks" },
   { name := "x-content-type-options", expected := some "nosniff", severity := .medium,
     description := "X-Content-Type-Options header is missing",
     recommendation := "Add X-Content-Type-Options: nosniff to prevent MIME type sniffing" },
   { name := "referrer-policy", expected := none, severity := .low,
     description := "Referrer-Policy header is missing",
     recommendation := "Add Referrer-Policy header to control referrer information" },
   { name := "permissions-policy", expected := none, severity := .low,
     description := "Permissions-Policy header is missing",
     recommendation := "Add Permissions-Policy header to control browser features" },
   { name := "x-xss-protection", expected := some "1; mode=block", severity := .low,
     description := "X-XSS-Protection header is missing or misconfigured",
     recommendation := "Add X-XSS-Protection: 1; mode=block header" }]

/-- The `COMMON_PATHS` table (routes.ts lines 364–381). -/
def COMMON_PATHS : List String :=
  ["/.env", "/.git/", "/.svn/", "/admin", "/administrator", "/backup",
   "/config", "/database", "/db", "/debug", "/logs", "/phpinfo.php",
   "/server-status", "/server-info", "/.htaccess", "/robots.txt", "/sitemap.xml"]

/-- `Object.keys(headers).map(h => h.toLowerCase())` in `analyzeSecurityHeaders`. -/
def headerKeysLower (headers : List (String × String)) : List String :=
  headers.map (fun h => jsToLower h.1)

/-- The issue(s) `analyzeSecurityHeaders` pushes for one table row:
a missing-header finding when the (lowercased) key set lacks the name,
otherwise a misconfigured finding when a literal value is expected and the
object lookup at the lowercase name differs from it (a JS lookup miss reads
as `undefined`, which also differs). -/
def headerIssuesFor (headers : List (String × String)) (sh : SecurityHeader) : List SecurityIssue :=
  if !((headerKeysLower headers).contains (jsToLower sh.name)) then
    [{ itype := "security_header", severity := sh.severity,
       title := "Missing Security Header: " ++ sh.name,
       description := sh.description,
       recommendation := sh.recommendation }]
  else
    match sh.expected with
    | some expectedVal =>
        if jsGet headers (jsToLower sh.name) ≠ some expectedVal then
          [{ itype := "security_header", severity := .medium,
             title := "Misconfigured Security Header: " ++ sh.name,
             description := sh.name ++ " header exists but may be misconfigured",
             evidence := some ("Current value: " ++
               (jsGet headers (jsToLower sh.name)).getD "undefined"),
             recommendation := "Set " ++ sh.name ++ " to: " ++ expectedVal }]
        else []
    | none => []

/-- The issues pushed by `analyzeSecurityHeaders` (routes.ts lines 424–461),
in table order. -/
def analyzeSecurityHeadersIssues (headers : List (String × String)) : List SecurityIssue :=
  SECURITY_HEADERS.flatMap (headerIssuesFor headers)

/-- The `missingSecurityHeaders` list pushed by `analyzeSecurityHeaders`,
in table order. -/
def missingSecurityHeadersOf (headers : List (String × String)) : List String :=
  (SECURITY_HEADERS.filter
    (fun sh => !((headerKeysLower headers).contains (jsToLower sh.name)))).map (·.name)

/-- The issues pushed by `analyzeSSLConfiguration` (routes.ts lines 463–500):
for a non-`https://` URL a single high no-SSL finding (early return);
otherwise the CSP mixed-content heuristic and the Server-banner weak-TLS
heuristic. -/
def analyzeSSLIssues (url : String) (headers : List (String × String)) : List SecurityIssue :=
  if !(jsStartsWith url "https://") then
    [{ itype := "ssl_tls", severity := .high,
       title := "No SSL/TLS Encryption",
       description := "Website is not using HTTPS encryption",
       recommendation := "Implement SSL/TLS certificate and redirect all HTTP traffic to HTTPS" }]
  else
    (match jsGet headers "content-security-policy" with
     | some csp =>
         if strContains csp "upgrade-insecure-requests" then
           [{ itype := "ssl_tls", severity := .medium,
              title := "Mixed Content Detected",
              description := "Website may be loading insecure content over HTTP",
              recommendation := "Ensure all resources are loaded over HTTPS" }]
         else []
     | none => []) ++
    (match jsGet headers "server" with
     | some server =>
         if strContains server "TLS/1.0" || strContains server "TLS/1.1" then
           [{ itype := "ssl_tls", severity := .high,
              title := "Weak TLS Configuration",
              description := "Server may be using outdated TLS versions",
              recommendation := "Upgrade to TLS 1.2 or higher and disable weak cipher suites" }]
         else []
     | none => [])

/-- Outcomes of the scanner's outbound probes and JS regex matches,
supplied as inputs to the pure model.  `pathOk p` is `response.ok` of the
HEAD request for common path `p`; `payloadHit p` says whether the traversal
response body for payload `p` contained one of the marker strings; the
`Option String` fields are the first match of the corresponding
`checkInformationDisclosure` regex, and the `comment*Hit` flags the
non-emptiness of the HTML-comment regex matches. -/
structure ProbeEnv where
  baseUrl : String
  pathOk : String → Bool
  hasQueryParams : Bool
  payloadHit : String → Bool
  serverVersionMatch : Bool
  poweredByMatch : Option String := none
  builtWithMatch : Option String := none
  generatorMatch : Option String := none
  xPoweredByMatch : Option String := none
  commentPasswordHit : Bool := false
  commentSecretHit : Bool := false
  commentApiKeyHit : Bool := false
  commentTokenHit : Bool := false

/-- Severity assigned to an exposed common path in
`checkCommonVulnerabilities`. -/
def pathSeverity (path : String) : Severity :=
  if strContains path ".env" || strContains path "config" then .critical
  else if strContains path "admin" || strContains path ".git" then .high
  else .medium

/-- The finding pushed for an accessible common path. -/
def exposedPathIssue (baseUrl path : String) : SecurityIssue :=
  let severity := pathSeverity path
  { itype := "information_disclosure", severity,
    title := "Exposed Path: " ++ path,
    description := "Sensitive path " ++ path ++
      " is accessible and may contain confidential information",
    evidence := some ("Accessible at: " ++ baseUrl ++ path),
    recommendation :=
      if severity = .critical then
        "Immediately restrict access to configuration files and environment variables"
      else "Restrict access to sensitive directories and files" }

/-- The issues pushed by `checkCommonVulnerabilities` (routes.ts lines
501–545): one finding per accessible common path, then the directory
listing marker scan of the HTML. -/
def checkCommonVulnIssues (env : ProbeEnv) (html : String) : List SecurityIssue :=
  ((COMMON_PATHS.filter env.pathOk).map (exposedPathIssue env.baseUrl)) ++
  (if strContains html "Index of /" || strContains html "Directory Listing" ||
      strContains html "[DIR]" then
    [{ itype := "directory_listing", severity := .medium,
       title := "Directory Listing Enabled",
       description := "Web server allows directory browsing which can expose sensitive files",
       recommendation := "Disable directory listing in web server configuration" }]
  else [])

/-- The three traversal payloads of `testDirectoryTraversal`. -/
def testPayloads : List String :=
  ["../../../etc/passwd",
   "..\\..\\..\\windows\\system32\\drivers\\etc\\hosts",
   "....//....//....//etc/passwd"]

/-- The issues pushed by `testDirectoryTraversal` (routes.ts lines 547–589):
only when the URL has query parameters, and only for the first payload whose
response body matched (the loop breaks after the first hit). -/
def traversalIssues (env : ProbeEnv) : List SecurityIssue :=
  if env.hasQueryParams then
    match testPayloads.find? env.payloadHit with
    | some payload =>
        [{ itype := "injection", severity := .critical,
           title := "Directory Traversal Vulnerability",
           description := "Application is vulnerable to directory traversal attacks",
           evidence := some ("Payload: " ++ payload),
           recommendation := "Implement proper input validation and sanitization",
           cvssScore := some 91 }]
    | none => []
  else []

/-- One tech-indicator disclosure finding of `checkInformationDisclosure`,
given the indicator's first regex match and display name. -/
def techIndicatorIssue (firstMatch : Option String) (name : String) : List SecurityIssue :=
  match firstMatch with
  | some m =>
      [{ itype := "information_disclosure", severity := .low,
         title := name ++ " Disclosure",
         description := "Technology information is exposed which could aid attackers",
         evidence := some m,
         recommendation := "Remove or obfuscate technology stack information from HTML and headers" }]
  | none => []

/-- One HTML-comment disclosure finding of `checkInformationDisclosure`,
given whether the comment regex matched. -/
def commentPatternIssue (hit : Bool) : List SecurityIssue :=
  if hit then
    [{ itype := "information_disclosure", severity := .medium,
       title := "Sensitive Information in Comments",
       description := "HTML comments may contain sensitive information",
       recommendation := "Remove sensitive information from HTML comments before deployment" }]
  else []

/-- The issues pushed by `checkInformationDisclosure` (routes.ts lines
591–651): the Server banner version disclosure, the four technology
indicators, and the four HTML-comment patterns, in source order. -/
def infoDisclosureIssues (env : ProbeEnv) (headers : List (String × String)) : List SecurityIssue :=
  (match jsGet headers "server" with
   | some server =>
       if (strContains server "Apache" || strContains server "nginx" ||
           strContains server "IIS") && env.serverVersionMatch then
         [{ itype := "information_disclosure", severity := .low,
            title := "Server Version Disclosure",
            description := "Web server version information is exposed in HTTP headers",
            evidence := some ("Server: " ++ server),
            recommendation := "Hide server version information in HTTP headers" }]
       else []
   | none => []) ++
  techIndicatorIssue env.poweredByMatch "Technology Stack" ++
  techIndicatorIssue env.builtWithMatch "Framework Information" ++
  techIndicatorIssue env.generatorMatch "Generator Meta Tag" ++
  techIndicatorIssue env.xPoweredByMatch "X-Powered-By Header" ++
  commentPatternIssue env.commentPasswordHit ++
  commentPatternIssue env.commentSecretHit ++
  commentPatternIssue env.commentApiKeyHit ++
  commentPatternIssue env.commentTokenHit

/-- The scanner output fields the claims are about.  The `sslAnalysis`
and `vulnerabilityTests` bookkeeping records of `WebSecurityResult` are
pure mirrors of the checks above and are not modelled. -/
structure WebSecurityResult where
  securityScore : Int
  missingSecurityHeaders : List String
  securityIssues : List SecurityIssue

/-- `performSecurityScan` (routes.ts lines 384–423): run the checks in
source order, accumulating `securityIssues`, then compute the final score. -/
def performSecurityScan (url html : String) (headers : List (String × String))
    (env : ProbeEnv) : WebSecurityResult :=
  let issues :=
    analyzeSecurityHeadersIssues headers ++
    analyzeSSLIssues url headers ++
    checkCommonVulnIssues env html ++
    traversalIssues env ++
    infoDisclosureIssues env headers
  { securityScore := calculateSecurityScore issues,
    missingSecurityHeaders := missingSecurityHeadersOf headers,
    securityIssues := issues }

/-!  ## The `WordPressSecurityScanner` class (src/unnamed/part_005) -/

/-- `VULNERABLE_WP_VERSIONS` (part_005 lines 27–33): version prefix and
associated CVE list. -/
def VULNERABLE_WP_VERSIONS : List (String × List String) :=
  [("6.3.0", ["CVE-2023-38000"]),
   ("6.2.0", ["CVE-2023-2745"]),
   ("6.1.0", ["CVE-2023-2745"]),
   ("6.0.0", ["CVE-2022-43497"])]

/-- `WP_SENSITIVE_FILES` (part_005 lines 35–52). -/
def WP_SENSITIVE_FILES : List String :=
  ["/wp-config.php", "/wp-config.php.bak", "/wp-config.php.old",
   "/wp-config.php.save", "/.wp-config.php.swp", "/wp-admin/setup-config.php",
   "/wp-content/debug.log", "/wp-includes/wp-config.php",
   "/wordpress/wp-config.php", "/wp/wp-config.php", "/blog/wp-config.php",
   "/wp-content/uploads/.htaccess", "/readme.html", "/license.txt",
   "/wp-admin/install.php", "/wp-admin/upgrade.php"]

/-- `detectWordPress` of the WordPress scanner (part_005): seven HTML
indicators checked against the lowercased HTML. -/
def wpScannerDetectWordPress (html : String) : Bool :=
  let htmlLower := jsToLower html
  ["/wp-content/", "/wp-includes/", "wp-json", "wordpress",
   "wp_enqueue_script", "wp-admin", "/wp-login.php"].any
    (fun indicator => strContains htmlLower indicator)

/-- JS `Number(part)` for a fragment of a version string split on dots:
`""` is `0`, an all-digit string is its value, anything else is `NaN`
(modelled as `none`; JS comparisons against `NaN` and `undefined` are
false, which `jsLtNum`/`jsEqNum` reproduce). -/
def jsNumberOfPart (s : String) : Option Int :=
  if s = "" then some 0
  else if s.toList.all Char.isDigit then some (digitsToNat s.toList : Int)
  else none

/-- JS `a < b` where `a` may be `NaN`/`undefined`. -/
def jsLtNum (a : Option Int) (b : Int) : Bool :=
  match a with
  | some x => decide (x < b)
  | none => false

/-- JS `a === b` after `Number` coercion, where `a` may be `NaN`/`undefined`. -/
def jsEqNum (a : Option Int) (b : Int) : Bool :=
  match a with
  | some x => x == b
  | none => false

/-- The freshness threshold of `checkVersionVulnerabilities`:
`versionParts[0] < 6 || (versionParts[0] === 6 && versionParts[1] < 4)`
on `version.split('.').map(Number)`. -/
def wpVersionOutdated (version : String) : Bool :=
  let parts := jsSplitChar version '.'
  let p0 := (parts.get? 0).bind jsNumberOfPart
  let p1 := (parts.get? 1).bind jsNumberOfPart
  jsLtNum p0 6 || (jsEqNum p0 6 && jsLtNum p1 4)

/-- The issues pushed by `checkVersionVulnerabilities` (part_005 lines
128–163): the curated vulnerable-prefix lookup, then the fixed freshness
threshold (major < 6, or major = 6 and minor < 4). -/
def checkVersionVulnIssues (version : String) : List SecurityIssue :=
  (match VULNERABLE_WP_VERSIONS.find? (fun v => jsStartsWith version v.1) with
   | some v =>
       [{ itype := "version", severity := .high,
          title := "Vulnerable WordPress Version: " ++ version,
          description := "WordPress version " ++ version ++
            " contains known security vulnerabilities.",
          evidence := some ("Version: " ++ version),
          recommendation := "Update WordPress to the latest stable version immediately.",
          cveId := v.2.head?,
          cvssScore := some 85 }]
   | none => []) ++
  (if wpVersionOutdated version then
     [{ itype := "version", severity := .medium,
        title := "Outdated WordPress Version",
        description := "WordPress version " ++ version ++
          " is outdated and may contain security vulnerabilities.",
        evidence := some ("Version: " ++ version),
        recommendation :=
          "Update WordPress to the latest stable version for security patches and improvements." }]
   else [])

/-- Outcomes of the WordPress scanner's outbound probes and regex matches.
`wpVersion` is the result of `extractWordPressVersion`'s four regex
attempts; `fileOk f` is `response.ok` of the HEAD request for sensitive
file `f`; the `*PathMatch` flags are the non-emptiness of the three
`checkInformationDisclosure` structure regexes. -/
structure WpProbeEnv where
  baseUrl : String
  wpVersion : Option String := none
  fileOk : String → Bool
  adminStatus200 : Bool := false
  xmlrpcOk : Bool := false
  userEnumRedirect : Bool := false
  userEnumLocation : Option String := none
  pluginsPathMatch : Bool := false
  themesPathMatch : Bool := false
  includesPathMatch : Bool := false

/-- Severity assigned to an exposed sensitive file in `checkExposedFiles`. -/
def wpFileSeverity (file : String) : Severity :=
  if strContains file "wp-config" then .critical
  else if strContains file "debug.log" then .high
  else .medium

/-- The finding pushed for an accessible sensitive WordPress file. -/
def exposedFileIssue (baseUrl file : String) : SecurityIssue :=
  let severity := wpFileSeverity file
  { itype := "file", severity,
    title := "Exposed Sensitive File: " ++ file,
    description := "Sensitive WordPress file " ++ file ++
      " is accessible and may contain configuration data or debug information.",
    evidence := some ("File accessible at: " ++ baseUrl ++ file),
    recommendation :=
      if severity = .critical then
        "Immediately restrict access to wp-config.php files using .htaccess or server configuration."
      else "Restrict access to sensitive files and disable debug logging in production." }

/-- The issues pushed by `checkSecurityConfigurations` (part_005 lines
201–280): admin accessibility, XML-RPC, user enumeration, then the
directory-listing marker scan of the HTML. -/
def wpConfigIssues (env : WpProbeEnv) (html : String) : List SecurityIssue :=
  (if env.adminStatus200 then
    [{ itype := "config", severity := .medium,
       title := "WordPress Admin Area Accessible",
       description := "WordPress admin area is accessible without proper protection.",
       recommendation :=
         "Consider implementing IP restrictions, two-factor authentication, or admin area protection." }]
  else []) ++
  (if env.xmlrpcOk then
    [{ itype := "config", severity := .medium,
       title := "XML-RPC Enabled",
       description := "WordPress XML-RPC is enabled and can be used for brute force attacks.",
       recommendation :=
         "Disable XML-RPC if not needed, or implement rate limiting and authentication." }]
  else []) ++
  (if env.userEnumRedirect then
    match env.userEnumLocation with
    | some location =>
        if strContains location "/author/" then
          [{ itype := "user_enum", severity := .low,
             title := "User Enumeration Possible",
             description := "WordPress allows user enumeration through author archives.",
             recommendation :=
               "Disable user enumeration by redirecting author pages or using security plugins." }]
        else []
    | none => []
  else []) ++
  (if ["Index of /", "Directory Listing", "<title>Index of", "Parent Directory",
       "[DIR]"].any (fun indicator => strContains html indicator) then
    [{ itype := "config", severity := .medium,
       title := "Directory Listing Enabled",
       description := "Server allows directory listing which can expose sensitive files.",
       recommendation := "Disable directory listing in web server configuration." }]
  else [])

/-- One structure-disclosure finding of the WordPress scanner's
`checkInformationDisclosure`, given whether the path regex matched. -/
def wpStructureIssue (hit : Bool) (path : String) : List SecurityIssue :=
  if hit then
    [{ itype := "config", severity := .low,
       title := "WordPress Structure Information Disclosure",
       description := "WordPress directory structure is exposed in HTML source, revealing " ++
         path ++ " contents.",
       recommendation :=
         "Consider using security plugins to hide WordPress structure information." }]
  else []

/-- The issues pushed by `checkDebugMode` (part_005 lines 323–346). -/
def wpDebugIssues (html : String) : List SecurityIssue :=
  if ["WP_DEBUG", "wp-content/debug.log", "Notice: ", "Warning: ",
      "Fatal error:", "wp_debug"].any (fun indicator => strContains html indicator) then
    [{ itype := "config", severity := .medium,
       title := "WordPress Debug Mode Enabled",
       description := "WordPress debug mode is enabled, potentially exposing sensitive information.",
       recommendation :=
         "Disable debug mode in production by setting WP_DEBUG to false in wp-config.php." }]
  else []

/-- The WordPress scanner output fields the claims are about. -/
structure WPSecurityResult where
  isWordPress : Bool
  version : Option String
  exposedFiles : List String
  securityIssues : List SecurityIssue

/-- `scanWordPressSecurity` (part_005 lines 54–92): bail out with an empty
result when no WordPress indicator matched, otherwise run version checks,
exposed-file probes, configuration checks, structure disclosure and debug
mode detection in source order. -/
def scanWordPressSecurity (html : String) (env : WpProbeEnv) : WPSecurityResult :=
  if !(wpScannerDetectWordPress html) then
    { isWordPress := false, version := none, exposedFiles := [], securityIssues := [] }
  else
    let versionIssues :=
      match env.wpVersion with
      | some v => checkVersionVulnIssues v
      | none => []
    let exposedFiles := WP_SENSITIVE_FILES.filter env.fileOk
    let fileIssues := exposedFiles.map (exposedFileIssue env.baseUrl)
    let infoIssues :=
      wpStructureIssue env.pluginsPathMatch "/wp-content/plugins/" ++
      wpStructureIssue env.themesPathMatch "/wp-content/themes/" ++
      wpStructureIssue env.includesPathMatch "/wp-includes/"
    { isWordPress := true,
      version := env.wpVersion,
      exposedFiles := exposedFiles,
      securityIssues :=
        versionIssues ++ fileIssues ++ wpConfigIssues env html ++
        infoIssues ++ wpDebugIssues html }

/-!  ## Page analysis functions (performance-analysis.ts / index.ts) -/

/-- Caching classification values (`partialCache` renders the source's
`'partial'`, a reserved word in Lean). -/
inductive Caching
  | enabled | partialCache | disabled
deriving DecidableEq, Repr

/-- Image optimization classification values. -/
inductive ImageOpt
  | good | needsImprovement | poor
deriving DecidableEq, Repr

/-- `detectWordPress(html, headers)` (performance-analysis.ts / index.ts):
six HTML indicators on the lowercased HTML, or any header value containing
`wordpress` case-insensitively. -/
def detectWordPressPage (html : String) (headers : List (String × String)) : Bool :=
  let htmlLower := jsToLower html
  let hasWpContent :=
    ["/wp-content/", "/wp-includes/", "wp-json", "wordpress",
     "wp_enqueue_script", "wp-admin"].any
      (fun indicator => strContains htmlLower indicator)
  let wpHeaders := headers.any (fun h => strContains (jsToLower h.2) "wordpress")
  hasWpContent || wpHeaders

/-- The character class `[^\/\?'"]` shared by the theme and plugin regexes. -/
def themeCharOk (c : Char) : Bool :=
  !(c = '/' || c = '?' || c = Char.ofNat 39 || c = Char.ofNat 34)

/-- First match of the JS regex `lit([^\/\?'"]+)` over a character list:
the engine tries each position left to right; a position matches when the
literal is a prefix there followed by at least one character of the class,
and the capture is the maximal run of class characters. -/
def firstCaptureAfter (lit : List Char) (ok : Char → Bool) : List Char → Option (List Char)
  | [] => none
  | c :: t =>
      if lit.isPrefixOf (c :: t) then
        let cap := ((c :: t).drop lit.length).takeWhile ok
        if cap.isEmpty then firstCaptureAfter lit ok t
        else some cap
      else firstCaptureAfter lit ok t

/-- Worker for `allCapturesAfter`.  The `fuel` argument only bounds the
recursion (every step consumes at least one character, so fuel equal to
the list length reproduces the unbounded scan exactly). -/
def allCapturesAfterAux (lit : List Char) (ok : Char → Bool) : Nat → List Char → List (List Char)
  | 0, _ => []
  | _, [] => []
  | fuel + 1, c :: t =>
      if lit.isPrefixOf (c :: t) then
        let rest := (c :: t).drop lit.length
        let cap := rest.takeWhile ok
        if cap.isEmpty then allCapturesAfterAux lit ok fuel t
        else cap :: allCapturesAfterAux lit ok fuel (rest.drop cap.length)
      else allCapturesAfterAux lit ok fuel t

/-- All matches of the global JS regex `lit([^\/\?'"]+)` over a character
list: like `firstCaptureAfter`, but after a match the scan resumes at the
character following the match (`lastIndex`). -/
def allCapturesAfter (lit : List Char) (ok : Char → Bool) (l : List Char) : List (List Char) :=
  allCapturesAfterAux lit ok l.length l

/-- `match[1].charAt(0).toUpperCase() + match[1].slice(1)`. -/
def jsCapitalize (cap : List Char) : String :=
  match cap with
  | [] => ""
  | c :: rest => String.mk (c.toUpper :: rest)

/-- `extractThemeName` (performance-analysis.ts lines 331–337): first
capture of `/\/wp-content\/themes\/([^\/\?'"]+)/`, capitalized. -/
def extractThemeName (html : String) : Option String :=
  (firstCaptureAfter "/wp-content/themes/".toList themeCharOk html.toList).map jsCapitalize

/-- `countPlugins` (performance-analysis.ts lines 339–346): all matches of
the global regex `/\/wp-content\/plugins\/([^\/\?'"]+)/g`, each split on
`/` taking element 3 (the captured plugin directory name), counted as a
set. -/
def countPlugins (html : String) : Nat :=
  let pluginMatches :=
    (allCapturesAfter "/wp-content/plugins/".toList themeCharOk html.toList).map
      (fun cap => String.mk ("/wp-content/plugins/".toList ++ cap))
  ((pluginMatches.map (fun m => (jsSplitChar m '/').getD 3 "")).dedup).length

/-- The CDN vendor indicator list of `detectCDN`. -/
def cdnIndicators : List String :=
  ["cloudflare", "cloudfront", "fastly", "maxcdn", "keycdn",
   "jsdelivr", "unpkg", "cdnjs", "bootstrapcdn"]

/-- `detectCDN` (performance-analysis.ts / index.ts): vendor substrings in
the lowercased HTML or in the space-joined lowercased header values. -/
def detectCDN (html : String) (headers : List (String × String)) : Bool :=
  let htmlLower := jsToLower html
  let headerValues := jsToLower (jsJoinSpace (headers.map (·.2)))
  cdnIndicators.any (fun cdn => strContains htmlLower cdn || strContains headerValues cdn)

/-- JS truthiness of an object lookup: present with a non-empty string. -/
def jsTruthy (v : Option String) : Bool :=
  match v with
  | some s => s ≠ ""
  | none => false

/-- `analyzeCaching` (performance-analysis.ts lines 362–369): count which
of the four cache headers are (truthily) present; at least 3 is `enabled`,
at least 1 is `partial`, otherwise `disabled`. -/
def analyzeCaching (headers : List (String × String)) : Caching :=
  let cacheHeaders := ["cache-control", "expires", "etag", "last-modified"]
  let foundHeaders := cacheHeaders.filter (fun header => jsTruthy (jsGet headers header))
  if foundHeaders.length ≥ 3 then .enabled
  else if foundHeaders.length ≥ 1 then .partialCache
  else .disabled

/-- `const hasSSL = url.startsWith('https://')` (index.ts main flow). -/
def hasSSLOf (url : String) : Bool :=
  jsStartsWith url "https://"

/-!  ## Recommendation generation -/

/-- The input record of `generateRecommendations`. -/
structure RecInput where
  performanceScore : Int
  hasCDN : Bool
  caching : Caching
  hasSSL : Bool
  isWordPress : Bool
  plugins : Nat
  imageOptimization : ImageOpt

/-- `generateRecommendations` (performance-analysis.ts lines 207–254):
condition-driven recommendations in fixed order, three generic fillers
appended when fewer than three accumulated, final `slice(0, 6)`. -/
def generateRecommendations (d : RecInput) : List String :=
  let recommendations :=
    (if d.performanceScore < 80 then
      ["Improve page loading speed by optimizing images and reducing server response time"]
    else []) ++
    (if !d.hasCDN then
      ["Implement a Content Delivery Network (CDN) to improve global loading speeds"]
    else []) ++
    (if d.caching = .disabled then
      ["Enable caching to improve page load times and reduce server load"]
    else []) ++
    (if !d.hasSSL then
      ["Install an SSL certificate to secure your website and improve SEO ranking"]
    else []) ++
    (if d.isWordPress then
      ["Keep WordPress core, themes, and plugins updated for security and performance"] ++
      (if d.plugins > 20 then
        ["Review and deactivate unnecessary plugins to improve performance"]
      else [])
    else []) ++
    (if d.imageOptimization ≠ .good then
      ["Optimize images by compressing and using modern formats like WebP"]
    else [])
  let recommendations :=
    if recommendations.length < 3 then
      recommendations ++
        ["Minify CSS, JavaScript, and HTML files to reduce file sizes",
         "Optimize database and remove unnecessary data",
         "Use a performance-optimized hosting provider"]
    else recommendations
  recommendations.take 6

/-- The recommendation assembly of `analyzeWebsite` (routes.ts lines
177–204): four fixed entries, an SSL entry unshifted in front when SSL is
absent, two conditional security entries appended, final `slice(0, 8)`. -/
def routesRecommendations (hasSSL : Bool) (missingHeaderCount : Nat)
    (isWordPress : Bool) (wpIssueCount : Nat) : List String :=
  let recommendations :=
    ["Improve page loading speed by optimizing images",
     "Implement a Content Delivery Network (CDN)",
     "Enable browser caching for better performance",
     "Optimize CSS and JavaScript files"]
  let recommendations :=
    (if !hasSSL then ["Install SSL certificate for secure connections"] else []) ++
    recommendations
  let recommendations :=
    recommendations ++
    (if missingHeaderCount > 0 then
      ["Implement missing security headers for better protection"]
    else [])
  let recommendations :=
    recommendations ++
    (if isWordPress && wpIssueCount > 0 then
      ["Address WordPress security vulnerabilities"]
    else [])
  recommendations.take 8

/-!  ## Concrete fixtures used by closed theorems -/

/-- The end-to-end scenario page: an Astra theme stylesheet with a `ver=`
query and two distinct plugin assets. -/
def c8Html : String :=
  "<html><head><link href=\"/wp-content/themes/astra/style.css?ver=1.0\"><script src=\"/wp-content/plugins/yoast-seo/yoast.js\"></script><script src=\"/wp-content/plugins/contact-form-7/cf7.js\"></script></head></html>"

/-- The end-to-end scenario response headers. -/
def c8Headers : List (String × String) :=
  [("cache-control", "max-age=3600"), ("etag", "abc")]

/-- A header map that lacks HSTS and CSP but carries the other five
recommended headers with their expected values. -/
def c5Headers : List (String × String) :=
  [("x-frame-options", "DENY"),
   ("x-content-type-options", "nosniff"),
   ("referrer-policy", "no-referrer"),
   ("permissions-policy", "camera=()"),
   ("x-xss-protection", "1; mode=block")]

/-- A probe environment in which no probe and no regex check fires. -/
def silentEnv : ProbeEnv :=
  { baseUrl := "http://example.com",
    pathOk := fun _ => false,
    hasQueryParams := false,
    payloadHit := fun _ => false,
    serverVersionMatch := false }

/-- A WordPress probe environment in which no probe and no regex check
fires. -/
def silentWpEnv : WpProbeEnv :=
  { baseUrl := "http://example.com",
    fileOk := fun _ => false }

/-!  ## Helper lemmas -/

theorem str_append_ne_empty (s t : String) (h : s ≠ "") : s ++ t ≠ "" := by
  intro heq
  apply h
  have hl := congrArg String.length heq
  rw [String.length_append, String.length_empty] at hl
  cases s with
  | mk data =>
    cases data with
    | nil => rfl
    | cons c cs =>
      have hc : (String.mk (c :: cs)).length = cs.length + 1 := rfl
      omega

theorem take_filler_bounds (base fillers : List String) (hf : fillers.length = 3) :
    3 ≤ ((if base.length < 3 then base ++ fillers else base).take 6).length ∧
    ((if base.length < 3 then base ++ fillers else base).take 6).length ≤ 8 := by
  rw [List.length_take]
  constructor
  · rw [le_min_iff]
    refine ⟨by norm_num, ?_⟩
    split_ifs with h
    · rw [List.length_append, hf]
      omega
    · omega
  · exact le_trans (min_le_left _ _) (by norm_num)

theorem foldl_push_filter (p : Technology → Bool) :
    ∀ (ct acc : List Technology),
      ct.foldl (fun merged tech => if p tech then merged ++ [tech] else merged) acc =
        acc ++ ct.filter p := by
  intro ct
  induction ct with
  | nil => intro acc; simp
  | cons h t ih =>
      intro acc
      cases hp : p h
      · simp only [List.foldl_cons, List.filter_cons, hp, Bool.false_eq_true, if_false, ih]
      · simp only [List.foldl_cons, List.filter_cons, hp, if_true, ih, List.append_assoc,
          List.singleton_append, List.cons_append, List.nil_append]

/-!  ## Claim theorems -/

/-- C2 (counterexample): the technology merge is neither sorted by
confidence descending nor truncated to 20 entries — merging a confidence-10
third-party entry with a confidence-90 in-process entry leaves the
confidence-10 entry first, and merging 21 third-party entries with nothing
returns all 21. -/
theorem c2_merge_not_sorted_not_capped :
    sortedByConfidenceDesc
      (mergeTechnologies [{ name := "Legacy", confidence := 10, category := "CMS" }]
        [{ name := "Modern", confidence := 90, category := "JavaScript frameworks" }]) = false ∧
    (mergeTechnologies
      (List.replicate 21 { name := "Widget", confidence := 50, category := "CMS" })
      []).length = 21 := by
  decide

/-- C2 (amended): the technology merge keeps the third-party entries, in
their input order, and appends exactly those in-process entries whose
lowercased name does not occur among the lowercased third-party names,
in their input order; no confidence sorting and no truncation occurs. -/
theorem c2_merge_keeps_thirdparty_appends_new (builtwithTech customTech : List Technology) :
    mergeTechnologies builtwithTech customTech =
      builtwithTech ++
        customTech.filter
          (fun tech =>
            !((builtwithTech.map (fun b => jsToLower b.name)).contains (jsToLower tech.name))) := by
  unfold mergeTechnologies
  exact foldl_push_filter _ customTech builtwithTech

/-- C3 (counterexample): the link-local hostname `169.254.1.1` passes the
hostname screening of `validateAndSanitizeUrl` — only the literal
`169.254.169.254` is in the blocked-domain list and the private-range
check covers 10/8, 172.16/12, 192.168/16 and 127/8 only. -/
theorem c3_link_local_not_blocked :
    hostBlockError "169.254.1.1" = none := by
  decide

/-- C3 (amended): the hostnames `127.0.0.1`, `10.0.0.1`, `192.168.1.1`,
and every hostname ending in `.local` (case-insensitively), are rejected
by the hostname screening before any network call. -/
theorem c3_blocked_hosts_rejected (h : String)
    (hh : h = "127.0.0.1" ∨ h = "10.0.0.1" ∨ h = "192.168.1.1" ∨
      jsEndsWith (jsToLower h) ".local" = true) :
    (hostBlockError h).isSome = true := by
  rcases hh with rfl | rfl | rfl | hl
  · decide
  · decide
  · decide
  · unfold hostBlockError
    simp only [BLOCKED_TLDS, List.any_cons, List.any_nil, hl, Bool.true_or, Bool.or_false]
    split
    · rfl
    · simp

/-- C3 (witness): the amended theorem applied to `printer.local`. -/
theorem c3_blocked_hosts_rejected_witness :
    jsEndsWith (jsToLower "printer.local") ".local" = true ∧
    (hostBlockError "printer.local").isSome = true :=
  ⟨by decide,
   c3_blocked_hosts_rejected "printer.local" (Or.inr (Or.inr (Or.inr (by decide))))⟩

/-- C4 (counterexample): the scheme-less host `httpbin.org` starts with the
characters `http`, so normalization returns it unchanged instead of
prepending `https://`. -/
theorem c4_httpbin_not_prefixed :
    normalizeUrl "httpbin.org" = "httpbin.org" ∧
    normalizeUrl "httpbin.org" ≠ "https://" ++ "httpbin.org" := by
  decide

/-- C4 (amended): for every URL string that does not begin with the
characters `http`, normalization returns exactly `https://` prepended to
the input. -/
theorem c4_normalize_prepends_https (url : String)
    (h : jsStartsWith url "http" = false) :
    normalizeUrl url = "https://" ++ url := by
  unfold normalizeUrl
  rw [h]
  simp

/-- C4 (witness): the amended theorem applied to `example.com`. -/
theorem c4_normalize_prepends_https_witness :
    jsStartsWith "example.com" "http" = false ∧
    normalizeUrl "example.com" = "https://" ++ "example.com" :=
  ⟨by decide, c4_normalize_prepends_https "example.com" (by decide)⟩

/-- C6: the aggregated security score never increases when a finding is
appended: scoring starts at 100, deducts 25/15/8/3 per
critical/high/medium/low finding, and clamps to [0, 100]. -/
theorem c6_security_score_monotone (issues : List SecurityIssue) (f : SecurityIssue) :
    calculateSecurityScore (issues ++ [f]) ≤ calculateSecurityScore issues := by
  have hd : 0 ≤ severityDeduction f.severity := by
    cases f.severity <;> simp [severityDeduction]
  unfold calculateSecurityScore
  rw [List.map_append, List.sum_append]
  simp only [List.map_cons, List.map_nil, List.sum_cons, List.sum_nil, add_zero]
  have h1 : 100 - ((issues.map (fun i => severityDeduction i.severity)).sum +
      severityDeduction f.severity) ≤
      100 - (issues.map (fun i => severityDeduction i.severity)).sum := by omega
  exact max_le_max le_rfl (min_le_min le_rfl h1)

/-- C10: `sanitizeError` returns either the fixed generic message, or one
of the seven safe messages — the latter only when the input is an `Error`
whose message is exactly that safe string. -/
theorem c10_sanitize_error_output (e : JsThrown) :
    sanitizeError e = "Analysis failed. Please check the URL and try again." ∨
      (sanitizeError e ∈ safeErrors ∧ e = JsThrown.error (sanitizeError e)) := by
  cases e with
  | nonError => left; rfl
  | error message =>
      by_cases hm : safeErrors.contains message
      · right
        refine ⟨?_, ?_⟩
        · simp only [sanitizeError, hm, if_true]
          simpa using hm
        · simp only [sanitizeError, hm, if_true]
      · left
        simp only [sanitizeError, hm, Bool.false_eq_true, if_false]

/-- C7: for every input signal combination, the recommendation list of
`generateRecommendations` and the recommendation assembly of
`analyzeWebsite` both have between 3 and 8 entries: fillers guarantee the
floor, the final `slice` the ceiling. -/
theorem c7_recommendation_bounds (d : RecInput) (hasSSL isWordPress : Bool)
    (missingHeaderCount wpIssueCount : Nat) :
    (3 ≤ (generateRecommendations d).length ∧ (generateRecommendations d).length ≤ 8) ∧
    (3 ≤ (routesRecommendations hasSSL missingHeaderCount isWordPress wpIssueCount).length ∧
      (routesRecommendations hasSSL missingHeaderCount isWordPress wpIssueCount).length ≤ 8) := by
  constructor
  · simp only [generateRecommendations]
    exact take_filler_bounds _ _ (by rfl)
  · simp only [routesRecommendations]
    rw [List.length_take]
    constructor
    · rw [le_min_iff]
      refine ⟨by norm_num, ?_⟩
      split_ifs <;> simp
    · exact le_trans (min_le_left _ _) (by norm_num)

set_option maxRecDepth 100000 in
/-- C8: for the page fetched over `https://` whose HTML references the
Astra theme stylesheet and two distinct plugin assets, with cache-control
and etag headers and no CDN vendor strings, the analysis yields
WordPress detected, theme `Astra`, plugin count 2, SSL present, no CDN,
and caching classified `partial` (2 of the 4 cache headers, with at least
3 required for `enabled`). -/
theorem c8_end_to_end_wordpress_scenario :
    detectWordPressPage c8Html c8Headers = true ∧
    extractThemeName c8Html = some "Astra" ∧
    countPlugins c8Html = 2 ∧
    hasSSLOf "https://example.com/" = true ∧
    detectCDN c8Html c8Headers = false ∧
    analyzeCaching c8Headers = Caching.partialCache := by
  decide

/-- C5: for every header map lacking HSTS and CSP but containing the other
five recommended headers with their expected values, the header audit
reports exactly `["strict-transport-security", "content-security-policy"]`
missing, in table order, and emits exactly the two corresponding
missing-header findings, both of severity high. -/
theorem c5_missing_hsts_csp_only (headers : List (String × String))
    (h1 : (headerKeysLower headers).contains "strict-transport-security" = false)
    (h2 : (headerKeysLower headers).contains "content-security-policy" = false)
    (h3 : (headerKeysLower headers).contains "x-frame-options" = true)
    (h4 : (headerKeysLower headers).contains "x-content-type-options" = true)
    (h5 : jsGet headers "x-content-type-options" = some "nosniff")
    (h6 : (headerKeysLower headers).contains "referrer-policy" = true)
    (h7 : (headerKeysLower headers).contains "permissions-policy" = true)
    (h8 : (headerKeysLower headers).contains "x-xss-protection" = true)
    (h9 : jsGet headers "x-xss-protection" = some "1; mode=block") :
    missingSecurityHeadersOf headers =
      ["strict-transport-security", "content-security-policy"] ∧
    analyzeSecurityHeadersIssues headers =
      [{ itype := "security_header", severity := .high,
         title := "Missing Security Header: strict-transport-security",
         description := "HTTP Strict Transport Security (HSTS) is missing",
         recommendation := "Add HSTS header to force HTTPS connections and prevent downgrade attacks" },
       { itype := "security_header", severity := .high,
         title := "Missing Security Header: content-security-policy",
         description := "Content Security Policy (CSP) is missing",
         recommendation := "Implement CSP header to prevent XSS and data injection attacks" }] := by
  have e1 : jsToLower "strict-transport-security" = "strict-transport-security" := by decide
  have e2 : jsToLower "content-security-policy" = "content-security-policy" := by decide
  have e3 : jsToLower "x-frame-options" = "x-frame-options" := by decide
  have e4 : jsToLower "x-content-type-options" = "x-content-type-options" := by decide
  have e5 : jsToLower "referrer-policy" = "referrer-policy" := by decide
  have e6 : jsToLower "permissions-policy" = "permissions-policy" := by decide
  have e7 : jsToLower "x-xss-protection" = "x-xss-protection" := by decide
  simp at h1 h2 h3 h4 h6 h7 h8
  constructor
  · simp [missingSecurityHeadersOf, SECURITY_HEADERS, List.filter_cons,
      e1, e2, e3, e4, e5, e6, e7, h1, h2, h3, h4, h6, h7, h8]
  · simp [analyzeSecurityHeadersIssues, SECURITY_HEADERS, headerIssuesFor,
      e1, e2, e3, e4, e5, e6, e7, h1, h2, h3, h4, h5, h6, h7, h8, h9]

/-- C5 (witness): the general theorem applied to a concrete header map. -/
theorem c5_missing_hsts_csp_only_witness :
    missingSecurityHeadersOf c5Headers =
      ["strict-transport-security", "content-security-policy"] ∧
    (analyzeSecurityHeadersIssues c5Headers).length = 2 :=
  have h := c5_missing_hsts_csp_only c5Headers (by decide) (by decide) (by decide)
    (by decide) (by decide) (by decide) (by decide) (by decide) (by decide)
  ⟨h.1, by rw [h.2]; rfl⟩

/-- C1 (counterexample): with no recommended security header, an `http://`
scheme and no probe, directory-listing or information-disclosure check
firing, the scan emits exactly 8 findings but the security score is not 12
(it is 100 − 3·15 − 2·8 − 3·3 = 30). -/
theorem c1_score_is_not_12 :
    (performSecurityScan "http://example.com" "" [] silentEnv).securityIssues.length = 8 ∧
    (performSecurityScan "http://example.com" "" [] silentEnv).securityScore ≠ 12 := by
  decide

/-- C1 (amended): for every analysis whose response headers contain none of
the 7 recommended security headers, whose URL scheme is not `https://`, and
in which no probe, directory-listing or information-disclosure check fires,
`securityIssues` has exactly 8 entries (7 missing-header findings plus the
no-SSL finding) and the security score equals 30
(100 − 15 − 15 − 15 − 8 − 8 − 3 − 3 − 3). -/
theorem c1_http_no_headers_scan
    (url html : String) (headers : List (String × String)) (env : ProbeEnv)
    (hssl : jsStartsWith url "https://" = false)
    (hmiss : ∀ sh ∈ SECURITY_HEADERS,
      (headerKeysLower headers).contains (jsToLower sh.name) = false)
    (hserver : jsGet headers "server" = none)
    (hpath : ∀ p, env.pathOk p = false)
    (hd1 : strContains html "Index of /" = false)
    (hd2 : strContains html "Directory Listing" = false)
    (hd3 : strContains html "[DIR]" = false)
    (hq : env.hasQueryParams = false)
    (hp1 : env.poweredByMatch = none) (hp2 : env.builtWithMatch = none)
    (hp3 : env.generatorMatch = none) (hp4 : env.xPoweredByMatch = none)
    (hc1 : env.commentPasswordHit = false) (hc2 : env.commentSecretHit = false)
    (hc3 : env.commentApiKeyHit = false) (hc4 : env.commentTokenHit = false) :
    (performSecurityScan url html headers env).securityIssues.length = 8 ∧
    (performSecurityScan url html headers env).securityScore = 30 := by
  simp only [SECURITY_HEADERS, List.forall_mem_cons, List.not_mem_nil] at hmiss
  obtain ⟨h1, h2, h3, h4, h5, h6, h7, -⟩ := hmiss
  have hfil : COMMON_PATHS.filter env.pathOk = [] := by
    rw [List.filter_eq_nil_iff]
    intro a _
    simp [hpath]
  have hiss : (performSecurityScan url html headers env).securityIssues =
      analyzeSecurityHeadersIssues headers ++ analyzeSSLIssues url headers ++
      checkCommonVulnIssues env html ++ traversalIssues env ++
      infoDisclosureIssues env headers := rfl
  have hhead : analyzeSecurityHeadersIssues headers =
      (SECURITY_HEADERS.map
        (fun sh =>
          { itype := "security_header", severity := sh.severity,
            title := "Missing Security Header: " ++ sh.name,
            description := sh.description,
            recommendation := sh.recommendation : SecurityIssue })) := by
    simp only [analyzeSecurityHeadersIssues, SECURITY_HEADERS, headerIssuesFor,
      List.flatMap_cons, List.flatMap_nil, h1, h2, h3, h4, h5, h6, h7,
      Bool.not_false, if_true, List.map_cons, List.map_nil, List.append_nil]
    rfl
  have hsslis : analyzeSSLIssues url headers =
      [{ itype := "ssl_tls", severity := .high,
         title := "No SSL/TLS Encryption",
         description := "Website is not using HTTPS encryption",
         recommendation :=
           "Implement SSL/TLS certificate and redirect all HTTP traffic to HTTPS" }] := by
    simp only [analyzeSSLIssues, hssl, Bool.not_false, if_true]
  have hvuln : checkCommonVulnIssues env html = [] := by
    simp only [checkCommonVulnIssues, hfil, hd1, hd2, hd3, List.map_nil,
      Bool.or_self, Bool.or_false, Bool.false_eq_true, if_false, List.append_nil,
      List.nil_append]
  have htrav : traversalIssues env = [] := by
    simp only [traversalIssues, hq, Bool.false_eq_true, if_false]
  have hinfo : infoDisclosureIssues env headers = [] := by
    simp only [infoDisclosureIssues, hserver, hp1, hp2, hp3, hp4, hc1, hc2, hc3, hc4,
      techIndicatorIssue, commentPatternIssue, Bool.false_eq_true, if_false,
      List.append_nil, List.nil_append]
  have hsc : (performSecurityScan url html headers env).securityScore =
      calculateSecurityScore
        (analyzeSecurityHeadersIssues headers ++ analyzeSSLIssues url headers ++
          checkCommonVulnIssues env html ++ traversalIssues env ++
          infoDisclosureIssues env headers) := rfl
  constructor
  · rw [hiss, hhead, hsslis, hvuln, htrav, hinfo]
    decide
  · rw [hsc, hhead, hsslis, hvuln, htrav, hinfo]
    decide

/-- C1 (witness): the amended theorem applied to a concrete silent run. -/
theorem c1_http_no_headers_scan_witness :
    (performSecurityScan "http://example.com" "" [] silentEnv).securityIssues.length = 8 ∧
    (performSecurityScan "http://example.com" "" [] silentEnv).securityScore = 30 :=
  c1_http_no_headers_scan "http://example.com" "" [] silentEnv (by decide) (by decide)
    rfl (fun _ => rfl) (by decide) (by decide) (by decide) rfl rfl rfl rfl rfl rfl rfl rfl rfl

theorem headerIssuesFor_rec_ne (headers : List (String × String)) (sh : SecurityHeader)
    (hsh : sh ∈ SECURITY_HEADERS) (f : SecurityIssue) (hf : f ∈ headerIssuesFor headers sh) :
    f.recommendation ≠ "" := by
  have hrec : sh.recommendation ≠ "" := by fin_cases hsh <;> decide
  unfold headerIssuesFor at hf
  split at hf
  · simp only [List.mem_singleton] at hf
    rw [hf]
    exact hrec
  · split at hf
    · split at hf
      · simp only [List.mem_singleton] at hf
        rw [hf]
        apply str_append_ne_empty
        apply str_append_ne_empty
        apply str_append_ne_empty
        decide
      · simp at hf
    · simp at hf

theorem sslIssues_rec_ne (url : String) (headers : List (String × String)) (f : SecurityIssue)
    (hf : f ∈ analyzeSSLIssues url headers) : f.recommendation ≠ "" := by
  unfold analyzeSSLIssues at hf
  split at hf
  · simp only [List.mem_singleton] at hf
    rw [hf]
    dsimp only
    decide
  · rw [List.mem_append] at hf
    rcases hf with hf | hf
    · split at hf
      · split at hf
        · simp only [List.mem_singleton] at hf
          rw [hf]
          dsimp only
          decide
        · simp at hf
      · simp at hf
    · split at hf
      · split at hf
        · simp only [List.mem_singleton] at hf
          rw [hf]
          dsimp only
          decide
        · simp at hf
      · simp at hf

theorem exposedPathIssue_rec_ne (baseUrl p : String) :
    (exposedPathIssue baseUrl p).recommendation ≠ "" := by
  by_cases hc : pathSeverity p = Severity.critical
  · simp only [exposedPathIssue, hc, if_true]
    decide
  · simp only [exposedPathIssue, hc, if_false]
    decide

theorem commonVulnIssues_rec_ne (env : ProbeEnv) (html : String) (f : SecurityIssue)
    (hf : f ∈ checkCommonVulnIssues env html) : f.recommendation ≠ "" := by
  unfold checkCommonVulnIssues at hf
  rw [List.mem_append] at hf
  rcases hf with hf | hf
  · rw [List.mem_map] at hf
    obtain ⟨p, -, hf⟩ := hf
    rw [← hf]
    exact exposedPathIssue_rec_ne env.baseUrl p
  · split at hf
    · simp only [List.mem_singleton] at hf
      rw [hf]
      dsimp only
      decide
    · simp at hf

theorem traversalIssues_rec_ne (env : ProbeEnv) (f : SecurityIssue)
    (hf : f ∈ traversalIssues env) : f.recommendation ≠ "" := by
  unfold traversalIssues at hf
  split at hf
  · split at hf
    · simp only [List.mem_singleton] at hf
      rw [hf]
      dsimp only
      decide
    · simp at hf
  · simp at hf

theorem techIndicatorIssue_rec_ne (m : Option String) (nm : String) (f : SecurityIssue)
    (hf : f ∈ techIndicatorIssue m nm) : f.recommendation ≠ "" := by
  unfold techIndicatorIssue at hf
  split at hf
  · simp only [List.mem_singleton] at hf
    rw [hf]
    dsimp only
    decide
  · simp at hf

theorem commentPatternIssue_rec_ne (hit : Bool) (f : SecurityIssue)
    (hf : f ∈ commentPatternIssue hit) : f.recommendation ≠ "" := by
  unfold commentPatternIssue at hf
  split at hf
  · simp only [List.mem_singleton] at hf
    rw [hf]
    dsimp only
    decide
  · simp at hf

theorem infoDisclosureIssues_rec_ne (env : ProbeEnv) (headers : List (String × String))
    (f : SecurityIssue) (hf : f ∈ infoDisclosureIssues env headers) :
    f.recommendation ≠ "" := by
  unfold infoDisclosureIssues at hf
  simp only [List.mem_append] at hf
  rcases hf with ((((((((hf | hf) | hf) | hf) | hf) | hf) | hf) | hf) | hf)
  · split at hf
    · split at hf
      · simp only [List.mem_singleton] at hf
        rw [hf]
        dsimp only
        decide
      · simp at hf
    · simp at hf
  · exact techIndicatorIssue_rec_ne _ _ f hf
  · exact techIndicatorIssue_rec_ne _ _ f hf
  · exact techIndicatorIssue_rec_ne _ _ f hf
  · exact techIndicatorIssue_rec_ne _ _ f hf
  · exact commentPatternIssue_rec_ne _ f hf
  · exact commentPatternIssue_rec_ne _ f hf
  · exact commentPatternIssue_rec_ne _ f hf
  · exact commentPatternIssue_rec_ne _ f hf

theorem checkVersionVulnIssues_rec_ne (version : String) (f : SecurityIssue)
    (hf : f ∈ checkVersionVulnIssues version) : f.recommendation ≠ "" := by
  unfold checkVersionVulnIssues at hf
  rw [List.mem_append] at hf
  rcases hf with hf | hf
  · split at hf
    · simp only [List.mem_singleton] at hf
      rw [hf]
      dsimp only
      decide
    · simp at hf
  · split at hf
    · simp only [List.mem_singleton] at hf
      rw [hf]
      dsimp only
      decide
    · simp at hf

theorem exposedFileIssue_rec_ne (baseUrl file : String) :
    (exposedFileIssue baseUrl file).recommendation ≠ "" := by
  by_cases hc : wpFileSeverity file = Severity.critical
  · simp only [exposedFileIssue, hc, if_true]
    decide
  · simp only [exposedFileIssue, hc, if_false]
    decide

theorem wpConfigIssues_rec_ne (env : WpProbeEnv) (html : String) (f : SecurityIssue)
    (hf : f ∈ wpConfigIssues env html) : f.recommendation ≠ "" := by
  unfold wpConfigIssues at hf
  simp only [List.mem_append] at hf
  rcases hf with ((hf | hf) | hf) | hf
  · split at hf
    · simp only [List.mem_singleton] at hf
      rw [hf]
      dsimp only
      decide
    · simp at hf
  · split at hf
    · simp only [List.mem_singleton] at hf
      rw [hf]
      dsimp only
      decide
    · simp at hf
  · split at hf
    · split at hf
      · split at hf
        · simp only [List.mem_singleton] at hf
          rw [hf]
          dsimp only
          decide
        · simp at hf
      · simp at hf
    · simp at hf
  · split at hf
    · simp only [List.mem_singleton] at hf
      rw [hf]
      dsimp only
      decide
    · simp at hf

theorem wpStructureIssue_rec_ne (hit : Bool) (path : String) (f : SecurityIssue)
    (hf : f ∈ wpStructureIssue hit path) : f.recommendation ≠ "" := by
  unfold wpStructureIssue at hf
  split at hf
  · simp only [List.mem_singleton] at hf
    rw [hf]
    dsimp only
    decide
  · simp at hf

theorem wpDebugIssues_rec_ne (html : String) (f : SecurityIssue)
    (hf : f ∈ wpDebugIssues html) : f.recommendation ≠ "" := by
  unfold wpDebugIssues at hf
  split at hf
  · simp only [List.mem_singleton] at hf
    rw [hf]
    dsimp only
    decide
  · simp at hf

/-- C9: every security finding emitted during one analysis pass — by any
check of the Web Security Scanner or of the WordPress Analyzer, under any
inputs and any probe outcomes — carries a non-empty recommendation
string. -/
theorem c9_every_finding_has_recommendation
    (url html : String) (headers : List (String × String)) (env : ProbeEnv)
    (wpHtml : String) (wpEnv : WpProbeEnv) (f : SecurityIssue) :
    (f ∈ (performSecurityScan url html headers env).securityIssues →
      f.recommendation ≠ "") ∧
    (f ∈ (scanWordPressSecurity wpHtml wpEnv).securityIssues →
      f.recommendation ≠ "") := by
  constructor
  · intro hf
    have hiss : (performSecurityScan url html headers env).securityIssues =
        analyzeSecurityHeadersIssues headers ++ analyzeSSLIssues url headers ++
        checkCommonVulnIssues env html ++ traversalIssues env ++
        infoDisclosureIssues env headers := rfl
    rw [hiss] at hf
    simp only [List.mem_append] at hf
    rcases hf with (((hf | hf) | hf) | hf) | hf
    · unfold analyzeSecurityHeadersIssues at hf
      rw [List.mem_flatMap] at hf
      obtain ⟨sh, hsh, hf⟩ := hf
      exact headerIssuesFor_rec_ne headers sh hsh f hf
    · exact sslIssues_rec_ne url headers f hf
    · exact commonVulnIssues_rec_ne env html f hf
    · exact traversalIssues_rec_ne env f hf
    · exact infoDisclosureIssues_rec_ne env headers f hf
  · intro hf
    unfold scanWordPressSecurity at hf
    split at hf
    · simp at hf
    · simp only [List.mem_append] at hf
      rcases hf with (((hf | hf) | hf) | hf) | hf
      · split at hf
        · exact checkVersionVulnIssues_rec_ne _ f hf
        · simp at hf
      · rw [List.mem_map] at hf
        obtain ⟨file, -, hf⟩ := hf
        rw [← hf]
        exact exposedFileIssue_rec_ne wpEnv.baseUrl file
      · exact wpConfigIssues_rec_ne wpEnv wpHtml f hf
      · rcases hf with (hf | hf) | hf
        · exact wpStructureIssue_rec_ne _ _ f hf
        · exact wpStructureIssue_rec_ne _ _ f hf
        · exact wpStructureIssue_rec_ne _ _ f hf
      · exact wpDebugIssues_rec_ne wpHtml f hf

/-- C9 (witness): the theorem applied to a concrete run in which the
no-SSL finding is emitted. -/
theorem c9_every_finding_has_recommendation_witness :
    ({ itype := "ssl_tls", severity := .high,
       title := "No SSL/TLS Encryption",
       description := "Website is not using HTTPS encryption",
       recommendation :=
         "Implement SSL/TLS certificate and redirect all HTTP traffic to HTTPS" } :
      SecurityIssue).recommendation ≠ "" :=
  (c9_every_finding_has_recommendation "http://example.com" "" [] silentEnv "" silentWpEnv
    { itype := "ssl_tls", severity := .high,
      title := "No SSL/TLS Encryption",
      description := "Website is not using HTTPS encryption",
      recommendation :=
        "Implement SSL/TLS certificate and redirect all HTTP traffic to HTTPS" }).1
    (by decide)

end SiteHealth
